import Mathlib

/-!
Verification of the query preprocessor in
`src/Voyagent/tools/gemini_preprocessor.py`.

The Python module is embedded shallowly:

* Python / JSON values are modelled by the inductive type `PyVal`.
* A Python `dict` with string keys is an insertion-ordered association
  list `List (String × PyVal)`; item assignment `d[k] = v` is `dictSet`
  (update in place when the key exists, append otherwise) and `d.get(k)`
  is `dictGet`.
* The remote completion call `self.llm.invoke(messages).content` is a
  parameter of type `Except String String`: `Except.ok text` is a
  returned response text, `Except.error msg` is a raised exception whose
  `str(e)` is `msg`.  The claims quantify over every remote behaviour,
  so the prompt contents play no role.
* Exception flow is explicit: fallible steps return `Except String _`,
  and the `try/except` of `preprocess_query` is the final `match`.
* `json.loads` is modelled by `json_loads`, a recursive-descent parser
  for standard JSON (objects, arrays, strings with escapes, numbers,
  `true`/`false`/`null`), strict about trailing garbage, duplicate keys
  resolved last-wins as in CPython.  Number lexemes are kept verbatim
  and `\uXXXX` escapes are mapped to the corresponding scalar without
  surrogate-pair combination; the error message strings are simplified.
* `str.lower` is modelled ASCII-wise by `pyLower`; Python substring
  membership `sub in s` by `substrIn`; `str.find` / `str.rfind` with a
  single-character needle (the only use in the source) by `pyFindChar` /
  `pyRfindChar`; slicing `s[a:b]` with non-negative bounds by `pySlice`.
-/

/-- A Python value as produced by `json.loads`, plus the strings the
preprocessor itself stores.  JSON numbers keep their source lexeme. -/
inductive PyVal where
  | str : String → PyVal
  | num : String → PyVal
  | bool : Bool → PyVal
  | none : PyVal
  | list : List PyVal → PyVal
  | dict : List (String × PyVal) → PyVal
deriving Repr

/-- Lookup in a Python dict (`d.get(k)` / `k in d`): first binding wins.
Dicts built by this model have unique keys, as in Python. -/
def dictGet (k : String) : List (String × PyVal) → Option PyVal
  | [] => Option.none
  | (k1, v) :: rest => if k1 = k then some v else dictGet k rest

/-- Python dict item assignment `d[k] = v`: replace the binding in place
when the key is present, otherwise append the new binding at the end
(insertion order, as in CPython). -/
def dictSet (d : List (String × PyVal)) (k : String) (v : PyVal) : List (String × PyVal) :=
  match d with
  | [] => [(k, v)]
  | (k1, v1) :: rest => if k1 = k then (k, v) :: rest else (k1, v1) :: dictSet rest k v

/-- ASCII model of Python `str.lower()` (all queries in the source and
in the spec examples are ASCII). -/
def pyLower (s : String) : String :=
  String.mk (s.toList.map Char.toLower)

/-- Python substring membership `sub in s`. -/
def substrIn (sub s : String) : Bool :=
  s.toList.tails.any (fun t => sub.toList.isPrefixOf t)

/-- Index of the first occurrence of a character, if any. -/
def findIdx (c : Char) : List Char → Option Nat
  | [] => Option.none
  | x :: xs => if x = c then some 0 else (findIdx c xs).map (· + 1)

/-- Python `s.find(c)` for a one-character needle: first index or -1. -/
def pyFindChar (s : String) (c : Char) : Int :=
  match findIdx c s.toList with
  | some i => (i : Int)
  | Option.none => -1

/-- Python `s.rfind(c)` for a one-character needle: last index or -1. -/
def pyRfindChar (s : String) (c : Char) : Int :=
  match findIdx c s.toList.reverse with
  | some i => ((s.toList.length - 1 - i : Nat) : Int)
  | Option.none => -1

/-- Python slice `s[a:b]` for non-negative bounds (the only case the
source reaches, guarded by `json_start >= 0 and json_end > 0`). -/
def pySlice (s : String) (a b : Nat) : String :=
  ((s.toList.drop a).take (b - a)).asString

/-- The character `{`. -/
def braceOpen : Char := '\x7b'

/-- The character `}`. -/
def braceClose : Char := '\x7d'

/-! ## Model of `json.loads` -/

/-- JSON whitespace as accepted by the CPython decoder. -/
def isJsonWs (c : Char) : Bool :=
  c = ' ' || c = '\t' || c = '\n' || c = '\r'

/-- Drop leading JSON whitespace. -/
def skipWs : List Char → List Char
  | [] => []
  | c :: cs => if isJsonWs c then skipWs cs else c :: cs

/-- Value of a hexadecimal digit. -/
def hexVal (c : Char) : Option Nat :=
  if '0' ≤ c ∧ c ≤ '9' then some (c.toNat - '0'.toNat)
  else if 'a' ≤ c ∧ c ≤ 'f' then some (c.toNat - 'a'.toNat + 10)
  else if 'A' ≤ c ∧ c ≤ 'F' then some (c.toNat - 'A'.toNat + 10)
  else Option.none

/-- Body of a JSON string after the opening quote: returns the decoded
string and the remaining input after the closing quote. -/
def parseStringBody : List Char → List Char → Except String (String × List Char)
  | [], _ => .error "Unterminated string"
  | c :: rest, acc =>
    if c = '"' then .ok (String.mk acc.reverse, rest)
    else if c = '\\' then
      match rest with
      | [] => .error "Unterminated string"
      | e :: rest2 =>
        if e = '"' then parseStringBody rest2 ('"' :: acc)
        else if e = '\\' then parseStringBody rest2 ('\\' :: acc)
        else if e = '/' then parseStringBody rest2 ('/' :: acc)
        else if e = 'b' then parseStringBody rest2 ('\x08' :: acc)
        else if e = 'f' then parseStringBody rest2 ('\x0c' :: acc)
        else if e = 'n' then parseStringBody rest2 ('\n' :: acc)
        else if e = 'r' then parseStringBody rest2 ('\r' :: acc)
        else if e = 't' then parseStringBody rest2 ('\t' :: acc)
        else if e = 'u' then
          match rest2 with
          | h1 :: h2 :: h3 :: h4 :: rest3 =>
            match hexVal h1, hexVal h2, hexVal h3, hexVal h4 with
            | some a, some b, some c3, some d =>
              parseStringBody rest3 (Char.ofNat (((a * 16 + b) * 16 + c3) * 16 + d) :: acc)
            | _, _, _, _ => .error "Invalid hex escape"
          | _ => .error "Invalid hex escape"
        else .error "Invalid escape"
    else if c.toNat < 32 then .error "Invalid control character"
    else parseStringBody rest (c :: acc)
/-- Take a maximal run of decimal digits. -/
def takeDigits : List Char → List Char × List Char
  | [] => ([], [])
  | c :: cs =>
    if c.isDigit then
      let p := takeDigits cs
      (c :: p.1, p.2)
    else ([], c :: cs)

/-- A JSON number, mimicking the CPython NUMBER_RE: optional minus, an
integer part with no leading zero, optional fraction and exponent; the
lexeme is kept as the value. -/
def parseNumber (cs : List Char) : Except String (PyVal × List Char) :=
  let (sign, cs1) :=
    match cs with
    | '-' :: rest => (['-'], rest)
    | _ => (([] : List Char), cs)
  match cs1 with
  | [] => .error "Expecting value"
  | c :: rest =>
    if ¬ c.isDigit then .error "Expecting value"
    else
      let (ints, rest1) :=
        if c = '0' then (['0'], rest)
        else takeDigits cs1
      let (frac, rest2) :=
        match rest1 with
        | '.' :: d :: r =>
          if d.isDigit then
            let p := takeDigits (d :: r)
            ('.' :: p.1, p.2)
          else (([] : List Char), rest1)
        | _ => (([] : List Char), rest1)
      let (expo, rest3) :=
        match rest2 with
        | e :: '+' :: d :: r =>
          if (e = 'e' ∨ e = 'E') ∧ d.isDigit then
            let p := takeDigits (d :: r)
            (e :: '+' :: p.1, p.2)
          else (([] : List Char), rest2)
        | e :: '-' :: d :: r =>
          if (e = 'e' ∨ e = 'E') ∧ d.isDigit then
            let p := takeDigits (d :: r)
            (e :: '-' :: p.1, p.2)
          else (([] : List Char), rest2)
        | e :: d :: r =>
          if (e = 'e' ∨ e = 'E') ∧ d.isDigit then
            let p := takeDigits (d :: r)
            (e :: p.1, p.2)
          else (([] : List Char), rest2)
        | _ => (([] : List Char), rest2)
      .ok (PyVal.num (String.mk (sign ++ ints ++ frac ++ expo)), rest3)

/-- The five mutually recursive parsing jobs of a recursive-descent JSON
parser, merged into one type so that the parser below is a single
function, structurally recursive on its fuel (and hence computable by
the kernel): a value, an object body after the opening brace, the
members of an object, an array body after the opening bracket, and the
items of an array. -/
inductive ParseTask where
  | value : List Char → ParseTask
  | object : List Char → ParseTask
  | members : List Char → List (String × PyVal) → ParseTask
  | array : List Char → ParseTask
  | items : List Char → List PyVal → ParseTask

/-- One JSON parsing step; `fuel` strictly decreases on every recursive
call and `json_loads` supplies more than enough of it, so exhaustion is
unreachable for any input the theorems touch.  Duplicate object keys
resolve last-wins with the position of the first occurrence, as in a
CPython dict. -/
def parseStep : Nat → ParseTask → Except String (PyVal × List Char)
  | 0, _ => .error "Expecting value"
  | fuel + 1, task =>
    match task with
    | .value cs =>
      match skipWs cs with
      | [] => .error "Expecting value"
      | c :: rest =>
        if c = braceOpen then parseStep fuel (.object rest)
        else if c = '[' then parseStep fuel (.array rest)
        else if c = '"' then
          match parseStringBody rest [] with
          | .ok (s, r) => .ok (PyVal.str s, r)
          | .error e => .error e
        else if c = 't' then
          match rest with
          | 'r' :: 'u' :: 'e' :: r => .ok (PyVal.bool true, r)
          | _ => .error "Expecting value"
        else if c = 'f' then
          match rest with
          | 'a' :: 'l' :: 's' :: 'e' :: r => .ok (PyVal.bool false, r)
          | _ => .error "Expecting value"
        else if c = 'n' then
          match rest with
          | 'u' :: 'l' :: 'l' :: r => .ok (PyVal.none, r)
          | _ => .error "Expecting value"
        else if c = '-' ∨ c.isDigit then parseNumber (c :: rest)
        else .error "Expecting value"
    | .object cs =>
      match skipWs cs with
      | c :: rest =>
        if c = braceClose then .ok (PyVal.dict [], rest)
        else parseStep fuel (.members (c :: rest) [])
      | [] => .error "Expecting property name enclosed in double quotes"
    | .members cs acc =>
      match skipWs cs with
      | '"' :: rest =>
        match parseStringBody rest [] with
        | .error e => .error e
        | .ok (key, r1) =>
          match skipWs r1 with
          | ':' :: r2 =>
            match parseStep fuel (.value r2) with
            | .error e => .error e
            | .ok (v, r3) =>
              match skipWs r3 with
              | ',' :: r4 => parseStep fuel (.members r4 (dictSet acc key v))
              | c :: r4 =>
                if c = braceClose then .ok (PyVal.dict (dictSet acc key v), r4)
                else .error "Expecting comma delimiter"
              | [] => .error "Expecting comma delimiter"
          | _ => .error "Expecting colon delimiter"
      | _ => .error "Expecting property name enclosed in double quotes"
    | .array cs =>
      match skipWs cs with
      | ']' :: rest => .ok (PyVal.list [], rest)
      | cs2 => parseStep fuel (.items cs2 [])
    | .items cs acc =>
      match parseStep fuel (.value cs) with
      | .error e => .error e
      | .ok (v, r1) =>
        match skipWs r1 with
        | ',' :: r2 => parseStep fuel (.items r2 (acc ++ [v]))
        | ']' :: r2 => .ok (PyVal.list (acc ++ [v]), r2)
        | _ => .error "Expecting comma delimiter"

/-- Model of `json.loads`: parse one value, then require only whitespace
to remain, as the CPython decoder does. -/
def json_loads (s : String) : Except String PyVal :=
  match parseStep (2 * s.length + 8) (ParseTask.value s.toList) with
  | .error e => .error e
  | .ok (v, rest) =>
    match skipWs rest with
    | [] => .ok v
    | _ => .error "Extra data"

/-! ## The preprocessor (`GeminiPreprocessor` in the source) -/

/-- Python equality of `d.get(k)` (an optional value) against a string
literal, as in `structured_data.get("query_type") != "transport_comparison"`:
`None` and non-string values compare unequal to any string. -/
def pyEqStrOpt : Option PyVal → String → Bool
  | some (PyVal.str s), t => s = t
  | _, _ => false

/-- Model of `structured_data.get(k, "").lower()`: a missing key defaults
to the empty string, a string value is lowered, and a non-string value
raises (`AttributeError`), propagated as an `Except.error`. -/
def getLowerDefault (d : List (String × PyVal)) (k : String) : Except String String :=
  match dictGet k d with
  | Option.none => .ok ""
  | some (PyVal.str s) => .ok (pyLower s)
  | some _ => .error "AttributeError: no attribute lower"

/-- Python item assignment on an arbitrary value: only dicts accept a
string key; anything else raises `TypeError`. -/
def pySetItem (v : PyVal) (k : String) (val : PyVal) : Except String (List (String × PyVal)) :=
  match v with
  | PyVal.dict d => .ok (dictSet d k val)
  | _ => .error "TypeError: object does not support item assignment"

/-- Lines 116-119 of the source: locate the first `LBRACE` and the last
`RBRACE` in the response and slice the substring between them inclusive;
`Option.none` when the guard `json_start >= 0 and json_end > 0` fails. -/
def extract_json (result : String) : Option String :=
  let json_start : Int := pyFindChar result braceOpen
  let json_end : Int := pyRfindChar result braceClose + 1
  if json_start ≥ 0 ∧ json_end > 0 then
    some (pySlice result json_start.toNat json_end.toNat)
  else
    Option.none

/-- Lines 116-123 of the source: parse the extracted substring, or build
the extraction-error marker dict when no braces were found.  A parse
failure is a raised exception, propagated to the outer handler. -/
def get_structured_data (result : String) : Except String PyVal :=
  match extract_json result with
  | some js => json_loads js
  | Option.none => .ok (PyVal.dict [("error", PyVal.str "Could not extract structured data")])

/-- The guard of line 131 of the source, in Python precedence
(`A or B or (C and (D or E))`). -/
def compTrigger (query : String) : Bool :=
  substrIn "vs" (pyLower query) || substrIn "versus" (pyLower query) ||
    (substrIn "or" (pyLower query) &&
      (substrIn "fly" (pyLower query) || substrIn "drive" (pyLower query)))

/-- Lines 136-143 of the source: keyword scan of the query in the fixed
order flight, drive, train, bus. -/
def modeScan (query : String) : List String :=
  (if substrIn "fly" (pyLower query) || substrIn "flight" (pyLower query) then ["flight"] else []) ++
    (if substrIn "drive" (pyLower query) || substrIn "car" (pyLower query) then ["drive"] else []) ++
    (if substrIn "train" (pyLower query) then ["train"] else []) ++
    (if substrIn "bus" (pyLower query) then ["bus"] else [])

/-- Lines 130-143 of the source: when the comparison guard fires and the
current `query_type` is not already `transport_comparison`, force it and
rebuild `transport_modes` from the keyword scan. -/
def comparison_override (query : String) (d : List (String × PyVal)) : List (String × PyVal) :=
  if compTrigger query then
    if pyEqStrOpt (dictGet "query_type" d) "transport_comparison" then d
    else
      dictSet (dictSet d "query_type" (PyVal.str "transport_comparison"))
        "transport_modes" (PyVal.list ((modeScan query).map PyVal.str))
  else d

/-- Lines 146-149 of the source: write `origin_code` when the lowered
origin is a recognized city. -/
def originFix (ol : String) (d : List (String × PyVal)) : List (String × PyVal) :=
  if ol ∈ (["sf", "san francisco"] : List String) then
    dictSet d "origin_code" (PyVal.str "SFO")
  else if ol ∈ (["fresno", "fres"] : List String) then
    dictSet d "origin_code" (PyVal.str "FAT")
  else d

/-- Lines 151-154 of the source: write `destination_code` when the
lowered destination is a recognized city (Fresno is tested first). -/
def destFix (dl : String) (d : List (String × PyVal)) : List (String × PyVal) :=
  if dl ∈ (["fresno", "fres"] : List String) then
    dictSet d "destination_code" (PyVal.str "FAT")
  else if dl ∈ (["sf", "san francisco"] : List String) then
    dictSet d "destination_code" (PyVal.str "SFO")
  else d

/-- Lines 145-154 of the source: the airport-code fix.  The origin is
examined first (its `.lower()` may raise), then the destination on the
possibly updated dict. -/
def airport_fix (d : List (String × PyVal)) : Except String (List (String × PyVal)) :=
  match getLowerDefault d "origin" with
  | .error e => .error e
  | .ok ol =>
    match getLowerDefault (originFix ol d) "destination" with
    | .error e => .error e
    | .ok dl => .ok (destFix dl (originFix ol d))

/-- The body of the `try` block of `preprocess_query` (lines 111-156):
invoke the remote model, extract and parse, append `original_query`,
apply the comparison override, then the airport-code fix.  Any raised
exception propagates as `Except.error`. -/
def preprocess_body (llm : Except String String) (query : String) :
    Except String (List (String × PyVal)) :=
  match llm with
  | .error e => .error e
  | .ok result =>
    match get_structured_data result with
    | .error e => .error e
    | .ok sd =>
      match pySetItem sd "original_query" (PyVal.str query) with
      | .error e => .error e
      | .ok d => airport_fix (comparison_override query d)

/-- `preprocess_query` (lines 35-164): the `try` body, with the
`except Exception` handler of lines 158-164 turning any exception into
the degraded dict.  Totality of this function is the never-raises
guarantee. -/
def preprocess_query (llm : Except String String) (query : String) :
    List (String × PyVal) :=
  match preprocess_body llm query with
  | .ok d => d
  | .error e =>
    [("error", PyVal.str e), ("original_query", PyVal.str query),
     ("query_type", PyVal.str "general")]

/-- `get_optimized_query` (lines 186-203): return `structured_query` when
present, else the original query; `tool_name` is accepted and unused. -/
def get_optimized_query (llm : Except String String) (query : String)
    (tool_name : String) : PyVal :=
  match dictGet "structured_query" (preprocess_query llm query) with
  | some v => v
  | Option.none => PyVal.str query

/-- `extract_travel_info` (lines 166-184): project origin, destination
and `date_info.start_date` out of the preprocessed result, each
defaulting to the empty string.  (`.get` on a non-dict `date_info` would
raise, but the call sits outside any handler only in the model of the
caller; in the source it is outside the `try` as well, so the projection
is total only for dict-or-absent `date_info`; modelled with the same
Python default semantics.) -/
def extract_travel_info (llm : Except String String) (query : String) :
    Except String (PyVal × PyVal × PyVal) :=
  let structured := preprocess_query llm query
  let origin := (dictGet "origin" structured).getD (PyVal.str "")
  let destination := (dictGet "destination" structured).getD (PyVal.str "")
  match (dictGet "date_info" structured).getD (PyVal.dict []) with
  | PyVal.dict di => .ok (origin, destination, (dictGet "start_date" di).getD (PyVal.str ""))
  | _ => .error "AttributeError: no attribute get"

/-- The flight-query example appearing verbatim in the source prompt
(line 77 of `gemini_preprocessor.py`). -/
def parisQuery : String := "I want to fly to Paris from New York next weekend"

/-- A remote response classifying `parisQuery` as a plain flight query,
exactly as the worked example of the source prompt instructs. -/
def parisResp : String :=
  "\x7b\"query_type\": \"flight\", \"origin\": \"New York\", \"destination\": \"Paris\"\x7d"

/-! ## Dictionary and pipeline lemmas -/

theorem dictGet_dictSet_self (d : List (String × PyVal)) (k : String) (v : PyVal) :
    dictGet k (dictSet d k v) = some v := by
  induction d with
  | nil => simp [dictSet, dictGet]
  | cons hd tl ih =>
    obtain ⟨k1, v1⟩ := hd
    by_cases h : k1 = k
    · subst h
      simp [dictSet, dictGet]
    · simp [dictSet, h, dictGet, ih]

theorem dictGet_dictSet_ne {k k2 : String} (h : k2 ≠ k)
    (d : List (String × PyVal)) (v : PyVal) :
    dictGet k2 (dictSet d k v) = dictGet k2 d := by
  induction d with
  | nil => simp [dictSet, dictGet, Ne.symm h]
  | cons hd tl ih =>
    obtain ⟨k1, v1⟩ := hd
    by_cases h1 : k1 = k
    · subst h1
      simp [dictSet, dictGet, Ne.symm h]
    · simp [dictSet, h1, dictGet, ih]

theorem getLowerDefault_congr {d1 d2 : List (String × PyVal)} {k : String}
    (h : dictGet k d1 = dictGet k d2) :
    getLowerDefault d1 k = getLowerDefault d2 k := by
  unfold getLowerDefault
  rw [h]

theorem comparison_override_get_ne (q : String) (d : List (String × PyVal))
    {k : String} (h1 : k ≠ "query_type") (h2 : k ≠ "transport_modes") :
    dictGet k (comparison_override q d) = dictGet k d := by
  unfold comparison_override
  split
  · split
    · rfl
    · rw [dictGet_dictSet_ne h2, dictGet_dictSet_ne h1]
  · rfl

theorem comparison_override_of_not_trigger {q : String} (h : compTrigger q = false)
    (d : List (String × PyVal)) : comparison_override q d = d := by
  simp [comparison_override, h]

theorem comparison_override_of_trigger {q : String} (ht : compTrigger q = true)
    {d : List (String × PyVal)}
    (hg : pyEqStrOpt (dictGet "query_type" d) "transport_comparison" = false) :
    comparison_override q d =
      dictSet (dictSet d "query_type" (PyVal.str "transport_comparison"))
        "transport_modes" (PyVal.list ((modeScan q).map PyVal.str)) := by
  simp [comparison_override, ht, hg]

theorem dictGet_originFix_ne (ol : String) {k : String} (h : k ≠ "origin_code")
    (d : List (String × PyVal)) :
    dictGet k (originFix ol d) = dictGet k d := by
  unfold originFix
  split
  · rw [dictGet_dictSet_ne h]
  · split
    · rw [dictGet_dictSet_ne h]
    · rfl

theorem dictGet_destFix_ne (dl : String) {k : String} (h : k ≠ "destination_code")
    (d : List (String × PyVal)) :
    dictGet k (destFix dl d) = dictGet k d := by
  unfold destFix
  split
  · rw [dictGet_dictSet_ne h]
  · split
    · rw [dictGet_dictSet_ne h]
    · rfl

theorem airport_fix_eq {d : List (String × PyVal)} {so sd : String}
    (ho : getLowerDefault d "origin" = .ok so)
    (hd : getLowerDefault d "destination" = .ok sd) :
    airport_fix d = .ok (destFix sd (originFix so d)) := by
  have hd1 : getLowerDefault (originFix so d) "destination" = .ok sd := by
    rw [getLowerDefault_congr (dictGet_originFix_ne so (by decide) d)]
    exact hd
  simp only [airport_fix, ho, hd1]

theorem airport_fix_get_ne {d d2 : List (String × PyVal)}
    (hfix : airport_fix d = .ok d2) {k : String}
    (h1 : k ≠ "origin_code") (h2 : k ≠ "destination_code") :
    dictGet k d2 = dictGet k d := by
  cases ho : getLowerDefault d "origin" with
  | error e =>
    rw [show airport_fix d = .error e by simp only [airport_fix, ho]] at hfix
    exact Except.noConfusion hfix
  | ok ol =>
    cases hd : getLowerDefault (originFix ol d) "destination" with
    | error e =>
      rw [show airport_fix d = .error e by simp only [airport_fix, ho, hd]] at hfix
      exact Except.noConfusion hfix
    | ok dl =>
      rw [show airport_fix d = .ok (destFix dl (originFix ol d)) by
            simp only [airport_fix, ho, hd]] at hfix
      obtain rfl : destFix dl (originFix ol d) = d2 := by
        simpa using hfix
      rw [dictGet_destFix_ne dl h2, dictGet_originFix_ne ol h1]

theorem preprocess_body_ok_dict {resp q : String} {kvs : List (String × PyVal)}
    (hsd : get_structured_data resp = .ok (PyVal.dict kvs)) :
    preprocess_body (Except.ok resp) q =
      airport_fix (comparison_override q (dictSet kvs "original_query" (PyVal.str q))) := by
  simp only [preprocess_body, hsd, pySetItem]

theorem preprocess_body_error {resp q e : String}
    (hsd : get_structured_data resp = .error e) :
    preprocess_body (Except.ok resp) q = .error e := by
  simp only [preprocess_body, hsd]

/-! ## Extraction lemmas -/

theorem findIdx_of_not_mem {c : Char} {l : List Char} (h : c ∉ l) :
    findIdx c l = Option.none := by
  induction l with
  | nil => rfl
  | cons x xs ih =>
    simp only [List.mem_cons, not_or] at h
    simp [findIdx, Ne.symm h.1, ih h.2]

theorem findIdx_append {c : Char} {l1 l2 : List Char} (h : c ∉ l1) :
    findIdx c (l1 ++ l2) = (findIdx c l2).map (· + l1.length) := by
  induction l1 with
  | nil =>
    simp only [List.nil_append, List.length_nil]
    cases hh : findIdx c l2 <;> simp
  | cons x xs ih =>
    simp only [List.mem_cons, not_or] at h
    have hx : ¬ (x = c) := Ne.symm h.1
    simp only [List.cons_append, findIdx, hx, if_false, List.append_eq]
    rw [ih h.2]
    cases hh : findIdx c l2 with
    | none => simp
    | some v =>
      show some (v + xs.length + 1) = some (v + (xs.length + 1))
      exact congrArg some (by omega)

theorem findIdx_head {c : Char} {l : List Char} (h : l.head? = some c) :
    findIdx c l = some 0 := by
  cases l with
  | nil => cases h
  | cons x xs =>
    simp only [List.head?_cons, Option.some.injEq] at h
    simp [findIdx, h]

theorem string_toList_append (a b : String) :
    (a ++ b).toList = a.toList ++ b.toList := by
  cases a
  cases b
  rfl

theorem asString_toList (s : String) : s.toList.asString = s := by
  cases s
  rfl

theorem extract_json_concat {pre obj post : String}
    (hpre : braceOpen ∉ pre.toList) (hpost : braceClose ∉ post.toList)
    (hhead : obj.toList.head? = some braceOpen)
    (hlast : obj.toList.getLast? = some braceClose) :
    extract_json (pre ++ obj ++ post) = some obj := by
  obtain ⟨c0, t0, hobj⟩ : ∃ c0 t0, obj.toList = c0 :: t0 := by
    cases hl : obj.toList with
    | nil => rw [hl] at hhead; cases hhead
    | cons a b => exact ⟨a, b, rfl⟩
  have hO : 1 ≤ obj.toList.length := by rw [hobj]; simp
  have htl : (pre ++ obj ++ post).toList = pre.toList ++ (obj.toList ++ post.toList) := by
    rw [string_toList_append, string_toList_append, List.append_assoc]
  have hc0 : c0 = braceOpen := by
    rw [hobj] at hhead
    simpa using hhead
  have hfind : findIdx braceOpen (pre ++ obj ++ post).toList = some pre.toList.length := by
    rw [htl, findIdx_append hpre]
    have h0 : findIdx braceOpen (obj.toList ++ post.toList) = some 0 := by
      apply findIdx_head
      rw [hobj, hc0]
      simp
    rw [h0]
    simp
  obtain ⟨c1, t1, hrobj⟩ : ∃ c1 t1, obj.toList.reverse = c1 :: t1 := by
    cases hl : obj.toList.reverse with
    | nil =>
      rw [hobj] at hl
      simp at hl
    | cons a b => exact ⟨a, b, rfl⟩
  have hc1 : c1 = braceClose := by
    have := List.head?_reverse obj.toList
    rw [hrobj, hlast] at this
    simpa using this
  have hrev : (pre ++ obj ++ post).toList.reverse =
      post.toList.reverse ++ (obj.toList.reverse ++ pre.toList.reverse) := by
    rw [htl]
    simp [List.reverse_append]
  have hrfind : findIdx braceClose (pre ++ obj ++ post).toList.reverse
      = some post.toList.length := by
    rw [hrev, findIdx_append (by simpa using hpost)]
    have h0 : findIdx braceClose (obj.toList.reverse ++ pre.toList.reverse) = some 0 := by
      apply findIdx_head
      rw [hrobj, hc1]
      simp
    rw [h0]
    simp
  have hlen : (pre ++ obj ++ post).toList.length
      = pre.toList.length + obj.toList.length + post.toList.length := by
    rw [htl]
    simp [List.length_append]
    omega
  simp only [extract_json, pyFindChar, pyRfindChar, hfind, hrfind, hlen]
  have hcond : ((pre.toList.length : Int) ≥ 0 ∧
      ((pre.toList.length + obj.toList.length + post.toList.length - 1
        - post.toList.length : Nat) : Int) + 1 > 0) := by
    constructor <;> omega
  rw [if_pos hcond]
  have ha : (pre.toList.length : Int).toNat = pre.toList.length := by omega
  have hb : (((pre.toList.length + obj.toList.length + post.toList.length - 1
      - post.toList.length : Nat) : Int) + 1).toNat
      = pre.toList.length + obj.toList.length := by omega
  rw [ha, hb]
  unfold pySlice
  rw [htl]
  have hd : (pre.toList ++ (obj.toList ++ post.toList)).drop pre.toList.length
      = obj.toList ++ post.toList := List.drop_left _ _
  rw [hd]
  have he : pre.toList.length + obj.toList.length - pre.toList.length
      = obj.toList.length := by omega
  rw [he, List.take_left, asString_toList]

theorem empty_append_append (s : String) : ("" ++ s) ++ "" = s := by
  rw [String.empty_append, String.append_empty]

theorem preprocess_body_nondict {resp q : String} {sd : PyVal}
    (hsd : get_structured_data resp = .ok sd)
    (hnd : ∀ kvs, sd ≠ PyVal.dict kvs) :
    preprocess_body (Except.ok resp) q
      = .error "TypeError: object does not support item assignment" := by
  simp only [preprocess_body, hsd]
  cases sd with
  | dict kvs => exact absurd rfl (hnd kvs)
  | str s => rfl
  | num s => rfl
  | bool b => rfl
  | none => rfl
  | list l => rfl

theorem preprocess_ok_eq {resp q : String} {kvs : List (String × PyVal)} {so sd : String}
    (hsd : get_structured_data resp = .ok (PyVal.dict kvs))
    (ho : getLowerDefault
      (comparison_override q (dictSet kvs "original_query" (PyVal.str q))) "origin" = .ok so)
    (hdl : getLowerDefault
      (originFix so (comparison_override q (dictSet kvs "original_query" (PyVal.str q))))
      "destination" = .ok sd) :
    preprocess_query (Except.ok resp) q
      = destFix sd (originFix so
          (comparison_override q (dictSet kvs "original_query" (PyVal.str q)))) := by
  simp only [preprocess_query, preprocess_body_ok_dict hsd, airport_fix, ho, hdl]

theorem getLowerDefault_pipeline {kvs : List (String × PyVal)} {q k : String}
    (hk1 : k ≠ "original_query") (hk2 : k ≠ "query_type") (hk3 : k ≠ "transport_modes") :
    getLowerDefault (comparison_override q (dictSet kvs "original_query" (PyVal.str q))) k
      = getLowerDefault kvs k := by
  apply getLowerDefault_congr
  rw [comparison_override_get_ne q _ hk2 hk3, dictGet_dictSet_ne hk1]

theorem getLowerDefault_pipeline2 {kvs : List (String × PyVal)} {q k so : String}
    (hko : k ≠ "origin_code") (hk1 : k ≠ "original_query")
    (hk2 : k ≠ "query_type") (hk3 : k ≠ "transport_modes") :
    getLowerDefault
      (originFix so (comparison_override q (dictSet kvs "original_query" (PyVal.str q)))) k
      = getLowerDefault kvs k := by
  apply getLowerDefault_congr
  rw [dictGet_originFix_ne _ hko, comparison_override_get_ne q _ hk2 hk3,
    dictGet_dictSet_ne hk1]

theorem dictGet_result_chain {d : List (String × PyVal)} {so sd k : String}
    (hko : k ≠ "origin_code") (hkd : k ≠ "destination_code") :
    dictGet k (destFix sd (originFix so d)) = dictGet k d := by
  rw [dictGet_destFix_ne _ hkd, dictGet_originFix_ne _ hko]

/-! ## Claim theorems -/

/-- C1, counterexample: the claim says every returned mapping carries a
non-empty `query_type`, at minimum "general".  On a response with no
brace and a query that does not fire the comparison override, the code
returns only the extraction-error marker and `original_query`: no
`query_type` key is present at all. -/
theorem C1_counterexample :
    dictGet "query_type"
      (preprocess_query (Except.ok "no structured data here") "hello")
      = Option.none := by
  rfl

/-- C1, amended: `query_type` is guaranteed only on the exception path,
where the handler returns it as "general"; on a returned response the
key may be absent (extraction-error marker, or model JSON lacking the
key, with the comparison override not firing). -/
theorem C1_amended_query_type_general_on_raise (q e : String) :
    dictGet "query_type" (preprocess_query (Except.error e) q)
      = some (PyVal.str "general") := by
  rfl

/-- C2: for every query and every remote behaviour (any response text or
any raised exception, including exceptions raised by post-processing,
which propagate through `preprocess_body`), `preprocess_query` returns
a mapping — totality of the embedding is the never-raises guarantee —
whose `original_query` equals the input query unchanged. -/
theorem C2_never_raises_original_query (llm : Except String String) (q : String) :
    dictGet "original_query" (preprocess_query llm q) = some (PyVal.str q) := by
  cases llm with
  | error e => rfl
  | ok resp =>
    cases hsd : get_structured_data resp with
    | error e =>
      simp only [preprocess_query, preprocess_body_error hsd]
      rfl
    | ok sd =>
      cases sd with
      | dict kvs =>
        cases hfix : airport_fix
            (comparison_override q (dictSet kvs "original_query" (PyVal.str q))) with
        | error e =>
          simp only [preprocess_query, preprocess_body_ok_dict hsd, hfix]
          rfl
        | ok d2 =>
          simp only [preprocess_query, preprocess_body_ok_dict hsd, hfix]
          rw [airport_fix_get_ne hfix (by decide) (by decide),
            comparison_override_get_ne q _ (by decide) (by decide),
            dictGet_dictSet_self]
      | str s =>
        simp only [preprocess_query,
          preprocess_body_nondict hsd (fun kvs h => PyVal.noConfusion h)]
        rfl
      | num s =>
        simp only [preprocess_query,
          preprocess_body_nondict hsd (fun kvs h => PyVal.noConfusion h)]
        rfl
      | bool b =>
        simp only [preprocess_query,
          preprocess_body_nondict hsd (fun kvs h => PyVal.noConfusion h)]
        rfl
      | none =>
        simp only [preprocess_query,
          preprocess_body_nondict hsd (fun kvs h => PyVal.noConfusion h)]
        rfl
      | list l =>
        simp only [preprocess_query,
          preprocess_body_nondict hsd (fun kvs h => PyVal.noConfusion h)]
        rfl

/-- C3, counterexample: the claim says a malformed JSON substring between
braces yields `error = "Could not extract structured data"`.  In the code
the `json.loads` failure is caught by the outer handler, so the error
field is the decode-exception message instead. -/
theorem C3_counterexample :
    extract_json "\x7bbad\x7d" = some "\x7bbad\x7d"
    ∧ dictGet "error" (preprocess_query (Except.ok "\x7bbad\x7d") "trip")
        = some (PyVal.str "Expecting property name enclosed in double quotes")
    ∧ "Expecting property name enclosed in double quotes"
        ≠ "Could not extract structured data" :=
  ⟨rfl, rfl, by decide⟩

/-- C3, amended: when braces are found but the extracted substring is
malformed JSON, the parse exception propagates to the outer handler, so
the result is the degraded dict whose `error` is the decode-exception
message and whose `query_type` is "general"; the marker string
"Could not extract structured data" arises only when no brace pair is
found at all. -/
theorem C3_amended_malformed_json_raises {resp q js m : String}
    (hx : extract_json resp = some js) (hp : json_loads js = .error m) :
    preprocess_query (Except.ok resp) q
      = [("error", PyVal.str m), ("original_query", PyVal.str q),
         ("query_type", PyVal.str "general")] := by
  have hsd : get_structured_data resp = .error m := by
    simp only [get_structured_data, hx, hp]
  simp only [preprocess_query, preprocess_body_error hsd]

/-- C3, witness for the amended theorem at a concrete malformed response. -/
theorem C3_amended_witness :
    json_loads "\x7bbad\x7d"
      = Except.error "Expecting property name enclosed in double quotes"
    ∧ preprocess_query (Except.ok "\x7bbad\x7d") "roadtrip"
      = [("error", PyVal.str "Expecting property name enclosed in double quotes"),
         ("original_query", PyVal.str "roadtrip"),
         ("query_type", PyVal.str "general")] :=
  ⟨rfl, C3_amended_malformed_json_raises rfl rfl⟩

/-- C8: for every query and every response text containing no opening
brace, the returned mapping carries
`error = "Could not extract structured data"`. -/
theorem C8_no_brace_error_marker (q resp : String)
    (h : pyFindChar resp braceOpen = -1) :
    dictGet "error" (preprocess_query (Except.ok resp) q)
      = some (PyVal.str "Could not extract structured data") := by
  have hx : extract_json resp = Option.none := by
    simp only [extract_json, h]
    norm_num
  have hsd : get_structured_data resp
      = .ok (PyVal.dict [("error", PyVal.str "Could not extract structured data")]) := by
    simp only [get_structured_data, hx]
  have ho2 : getLowerDefault
      (comparison_override q (dictSet
        [("error", PyVal.str "Could not extract structured data")]
        "original_query" (PyVal.str q))) "origin" = .ok "" := by
    rw [getLowerDefault_pipeline (by decide) (by decide) (by decide)]
    rfl
  have hd2 : getLowerDefault
      (originFix "" (comparison_override q (dictSet
        [("error", PyVal.str "Could not extract structured data")]
        "original_query" (PyVal.str q)))) "destination" = .ok "" := by
    rw [getLowerDefault_pipeline2 (by decide) (by decide) (by decide) (by decide)]
    rfl
  rw [preprocess_ok_eq hsd ho2 hd2,
    dictGet_result_chain (by decide) (by decide),
    comparison_override_get_ne q _ (by decide) (by decide),
    dictGet_dictSet_ne (by decide)]
  rfl

/-- C8, witness at a concrete brace-free response. -/
theorem C8_witness :
    pyFindChar "nope" braceOpen = -1
    ∧ dictGet "error" (preprocess_query (Except.ok "nope") "hi")
        = some (PyVal.str "Could not extract structured data") :=
  ⟨by decide, C8_no_brace_error_marker "hi" "nope" (by decide)⟩

/-- C9: for every remote behaviour, query and tool name,
`get_optimized_query` ignores the tool name, returns the
`structured_query` field when present, and falls back to the verbatim
original query otherwise. -/
theorem C9_get_optimized_query (llm : Except String String) (q t : String) :
    (∀ t2 : String, get_optimized_query llm q t = get_optimized_query llm q t2)
    ∧ (∀ v : PyVal, dictGet "structured_query" (preprocess_query llm q) = some v →
        get_optimized_query llm q t = v)
    ∧ (dictGet "structured_query" (preprocess_query llm q) = Option.none →
        get_optimized_query llm q t = PyVal.str q) := by
  refine ⟨fun t2 => rfl, fun v hv => ?_, fun hn => ?_⟩
  · simp only [get_optimized_query, hv]
  · simp only [get_optimized_query, hn]

/-- C9, witness: a response carrying `structured_query` is returned. -/
theorem C9_witness :
    dictGet "structured_query"
        (preprocess_query
          (Except.ok "\x7b\"structured_query\": \"flights from SFO\"\x7d") "hi")
      = some (PyVal.str "flights from SFO")
    ∧ get_optimized_query
        (Except.ok "\x7b\"structured_query\": \"flights from SFO\"\x7d") "hi" "apify_flight"
      = PyVal.str "flights from SFO" :=
  ⟨rfl,
    (C9_get_optimized_query
      (Except.ok "\x7b\"structured_query\": \"flights from SFO\"\x7d") "hi" "apify_flight").2.1
      (PyVal.str "flights from SFO") rfl⟩

/-- C10 (implicit): the comparison guard is plain substring containment,
so any query whose lowered text contains "or" anywhere — including inside
longer words such as York — together with "fly" or "drive" fires the
trigger; and on the flight example of the source prompt, classified by
the model as "flight", `preprocess_query` reclassifies to
"transport_comparison". -/
theorem C10_or_substring_reclassifies (q : String)
    (h1 : substrIn "or" (pyLower q) = true)
    (h2 : substrIn "fly" (pyLower q) = true ∨ substrIn "drive" (pyLower q) = true) :
    compTrigger q = true
    ∧ dictGet "query_type" (preprocess_query (Except.ok parisResp) parisQuery)
        = some (PyVal.str "transport_comparison") := by
  constructor
  · unfold compTrigger
    rcases h2 with h2 | h2 <;> simp [h1, h2]
  · rfl

/-- C10, witness at the New York flight query of the source prompt. -/
theorem C10_witness :
    substrIn "or" (pyLower parisQuery) = true
    ∧ (compTrigger parisQuery = true
       ∧ dictGet "query_type" (preprocess_query (Except.ok parisResp) parisQuery)
           = some (PyVal.str "transport_comparison")) :=
  ⟨by decide, C10_or_substring_reclassifies parisQuery (by decide) (Or.inl (by decide))⟩

/-- C4, counterexample: the claim asserts the override always recomputes
`transport_modes` by keyword scan, but the code only does so when the
model did not already answer `transport_comparison`; here the model
returned modes `["bus"]` and the keyword scan would give
`["flight", "drive"]`, yet the result keeps `["bus"]`. -/
theorem C4_counterexample :
    compTrigger "fly or drive" = true
    ∧ modeScan "fly or drive" = ["flight", "drive"]
    ∧ dictGet "transport_modes"
        (preprocess_query
          (Except.ok
            "\x7b\"query_type\": \"transport_comparison\", \"transport_modes\": [\"bus\"]\x7d")
          "fly or drive")
        = some (PyVal.list [PyVal.str "bus"])
    ∧ (["bus"] : List String) ≠ ["flight", "drive"] :=
  ⟨by decide, by decide, rfl, by decide⟩

/-- C4, amended: when the comparison guard fires and the parsed
`query_type` is not already `transport_comparison` (and the origin and
destination values admit `.lower()`, so that no later exception rewrites
the dict), the result is forced to `query_type = "transport_comparison"`
with `transport_modes` recomputed by the keyword scan in the fixed order
flight, drive, train, bus. -/
theorem C4_amended_override_forces_comparison
    (resp q : String) (kvs : List (String × PyVal)) (so sd : String)
    (htrig : compTrigger q = true)
    (hsd : get_structured_data resp = .ok (PyVal.dict kvs))
    (hqt : pyEqStrOpt (dictGet "query_type" kvs) "transport_comparison" = false)
    (ho : getLowerDefault kvs "origin" = .ok so)
    (hd : getLowerDefault kvs "destination" = .ok sd) :
    dictGet "query_type" (preprocess_query (Except.ok resp) q)
      = some (PyVal.str "transport_comparison")
    ∧ dictGet "transport_modes" (preprocess_query (Except.ok resp) q)
      = some (PyVal.list ((modeScan q).map PyVal.str)) := by
  have ho2 : getLowerDefault
      (comparison_override q (dictSet kvs "original_query" (PyVal.str q)))
      "origin" = .ok so := by
    rw [getLowerDefault_pipeline (by decide) (by decide) (by decide)]
    exact ho
  have hd2 : getLowerDefault
      (originFix so (comparison_override q (dictSet kvs "original_query" (PyVal.str q))))
      "destination" = .ok sd := by
    rw [getLowerDefault_pipeline2 (by decide) (by decide) (by decide) (by decide)]
    exact hd
  have hqt2 : pyEqStrOpt
      (dictGet "query_type" (dictSet kvs "original_query" (PyVal.str q)))
      "transport_comparison" = false := by
    rw [dictGet_dictSet_ne (by decide)]
    exact hqt
  rw [preprocess_ok_eq hsd ho2 hd2, comparison_override_of_trigger htrig hqt2]
  constructor
  · rw [dictGet_result_chain (by decide) (by decide),
      dictGet_dictSet_ne (by decide), dictGet_dictSet_self]
  · rw [dictGet_result_chain (by decide) (by decide), dictGet_dictSet_self]

/-- C4, witness at the transport-comparison example query of the spec,
with the model answering a plain flight classification. -/
theorem C4_witness :
    compTrigger "Should I drive or fly from San Francisco to Yosemite?" = true
    ∧ (dictGet "query_type"
        (preprocess_query
          (Except.ok "\x7b\"query_type\": \"flight\", \"origin\": \"San Francisco\"\x7d")
          "Should I drive or fly from San Francisco to Yosemite?")
        = some (PyVal.str "transport_comparison")
       ∧ dictGet "transport_modes"
        (preprocess_query
          (Except.ok "\x7b\"query_type\": \"flight\", \"origin\": \"San Francisco\"\x7d")
          "Should I drive or fly from San Francisco to Yosemite?")
        = some (PyVal.list
            ((modeScan "Should I drive or fly from San Francisco to Yosemite?").map
              PyVal.str))) :=
  ⟨by decide,
    C4_amended_override_forces_comparison
      "\x7b\"query_type\": \"flight\", \"origin\": \"San Francisco\"\x7d"
      "Should I drive or fly from San Francisco to Yosemite?"
      [("query_type", PyVal.str "flight"), ("origin", PyVal.str "San Francisco")]
      "san francisco" "" (by decide) rfl (by decide) rfl rfl⟩

/-- C5, counterexample: the claim asserts the result has exactly the
fields of the responded JSON object plus `original_query`; with origin
"sf" the airport-code override appends an `origin_code` field absent
from the JSON. -/
theorem C5_counterexample :
    json_loads "\x7b\"origin\": \"sf\"\x7d"
      = Except.ok (PyVal.dict [("origin", PyVal.str "sf")])
    ∧ dictGet "origin_code" [("origin", PyVal.str "sf")] = Option.none
    ∧ dictGet "origin_code"
        (preprocess_query (Except.ok "\x7b\"origin\": \"sf\"\x7d") "hello")
        = some (PyVal.str "SFO") :=
  ⟨rfl, rfl, rfl⟩

/-- C5, amended: when the response text is exactly a JSON object (first
character an opening brace, last a closing brace, parsing as a dict) and
neither override fires — the comparison guard is false and the lowered
origin and destination are not recognized cities — the result is the
parsed object verbatim with `original_query` set to the input query. -/
theorem C5_amended_roundtrip_without_overrides
    (resp q : String) (kvs : List (String × PyVal)) (so sd : String)
    (hhead : resp.toList.head? = some braceOpen)
    (hlast : resp.toList.getLast? = some braceClose)
    (hparse : json_loads resp = .ok (PyVal.dict kvs))
    (htrig : compTrigger q = false)
    (ho : getLowerDefault kvs "origin" = .ok so)
    (hso : so ∉ (["sf", "san francisco", "fresno", "fres"] : List String))
    (hd : getLowerDefault kvs "destination" = .ok sd)
    (hsd : sd ∉ (["sf", "san francisco", "fresno", "fres"] : List String)) :
    preprocess_query (Except.ok resp) q
      = dictSet kvs "original_query" (PyVal.str q) := by
  simp only [List.mem_cons, List.not_mem_nil, or_false, not_or] at hso hsd
  obtain ⟨hso1, hso2, hso3, hso4⟩ := hso
  obtain ⟨hsd1, hsd2, hsd3, hsd4⟩ := hsd
  have hsoA : so ∉ (["sf", "san francisco"] : List String) := by simp [hso1, hso2]
  have hsoB : so ∉ (["fresno", "fres"] : List String) := by simp [hso3, hso4]
  have hsdA : sd ∉ (["fresno", "fres"] : List String) := by simp [hsd3, hsd4]
  have hsdB : sd ∉ (["sf", "san francisco"] : List String) := by simp [hsd1, hsd2]
  have hx : extract_json resp = some resp := by
    have h0 := @extract_json_concat "" resp ""
      (by simp) (by simp) hhead hlast
    rwa [empty_append_append] at h0
  have hsd0 : get_structured_data resp = .ok (PyVal.dict kvs) := by
    simp only [get_structured_data, hx, hparse]
  have hco := comparison_override_of_not_trigger htrig
    (dictSet kvs "original_query" (PyVal.str q))
  have ho2 : getLowerDefault
      (comparison_override q (dictSet kvs "original_query" (PyVal.str q)))
      "origin" = .ok so := by
    rw [getLowerDefault_pipeline (by decide) (by decide) (by decide)]
    exact ho
  have hd2 : getLowerDefault
      (originFix so (comparison_override q (dictSet kvs "original_query" (PyVal.str q))))
      "destination" = .ok sd := by
    rw [getLowerDefault_pipeline2 (by decide) (by decide) (by decide) (by decide)]
    exact hd
  rw [preprocess_ok_eq hsd0 ho2 hd2, hco]
  unfold originFix
  rw [if_neg hsoA, if_neg hsoB]
  unfold destFix
  rw [if_neg hsdA, if_neg hsdB]

/-- C5, witness at a concrete poi response and an override-free query. -/
theorem C5_witness :
    compTrigger "tell me about Paris" = false
    ∧ preprocess_query
        (Except.ok "\x7b\"query_type\": \"poi\", \"destination\": \"Paris\"\x7d")
        "tell me about Paris"
      = dictSet [("query_type", PyVal.str "poi"), ("destination", PyVal.str "Paris")]
          "original_query" (PyVal.str "tell me about Paris") :=
  ⟨by decide,
    C5_amended_roundtrip_without_overrides
      "\x7b\"query_type\": \"poi\", \"destination\": \"Paris\"\x7d"
      "tell me about Paris"
      [("query_type", PyVal.str "poi"), ("destination", PyVal.str "Paris")]
      "" "paris" rfl rfl rfl (by decide) rfl (by decide) rfl (by decide)⟩

/-- C6: a response made of a JSON object with brace-free leading prose
and closing-brace-free trailing prose is cut from the first opening
brace to the last closing brace inclusive, so exactly the embedded
object is extracted and handed to the JSON parser. -/
theorem C6_extracts_first_to_last_brace (pre obj post : String)
    (hpre : braceOpen ∉ pre.toList) (hpost : braceClose ∉ post.toList)
    (hhead : obj.toList.head? = some braceOpen)
    (hlast : obj.toList.getLast? = some braceClose) :
    extract_json (pre ++ obj ++ post) = some obj
    ∧ get_structured_data (pre ++ obj ++ post) = json_loads obj := by
  have hx := extract_json_concat hpre hpost hhead hlast
  exact ⟨hx, by simp only [get_structured_data, hx]⟩

/-- C6, witness at the prose example of the spec. -/
theorem C6_witness :
    braceClose ∉ (" Let me know if you need more." : String).toList
    ∧ (extract_json
        ("Here is the result: " ++ "\x7b\"query_type\": \"poi\"\x7d"
          ++ " Let me know if you need more.")
        = some "\x7b\"query_type\": \"poi\"\x7d"
       ∧ get_structured_data
        ("Here is the result: " ++ "\x7b\"query_type\": \"poi\"\x7d"
          ++ " Let me know if you need more.")
        = json_loads "\x7b\"query_type\": \"poi\"\x7d") :=
  ⟨by decide,
    C6_extracts_first_to_last_brace "Here is the result: "
      "\x7b\"query_type\": \"poi\"\x7d" " Let me know if you need more."
      (by decide) (by decide) (by decide) (by decide)⟩

/-- C7, counterexample: the claim says an unrecognized origin yields no
`origin_code` in the result, but a code supplied by the model JSON is
left in place: origin "Paris" is unrecognized, yet `origin_code` "CDG"
survives into the result. -/
theorem C7_counterexample :
    dictGet "origin_code"
      (preprocess_query
        (Except.ok "\x7b\"origin\": \"Paris\", \"origin_code\": \"CDG\"\x7d") "hello")
      = some (PyVal.str "CDG")
    ∧ ("paris" : String) ∉ (["sf", "san francisco", "fresno", "fres"] : List String) :=
  ⟨rfl, by decide⟩

/-- C7, amended: on a successfully parsed dict whose origin and
destination admit `.lower()`, the code writes `origin_code` SFO for
lowered origin sf / san francisco and FAT for fresno / fres, likewise
`destination_code` for the destination; for any other value it writes
nothing, so the code field equals whatever the parsed JSON supplied
(absent when the JSON had none). -/
theorem C7_amended_airport_codes
    (resp q : String) (kvs : List (String × PyVal)) (so sd : String)
    (hsd : get_structured_data resp = .ok (PyVal.dict kvs))
    (ho : getLowerDefault kvs "origin" = .ok so)
    (hd : getLowerDefault kvs "destination" = .ok sd) :
    dictGet "origin_code" (preprocess_query (Except.ok resp) q)
      = (if so ∈ (["sf", "san francisco"] : List String) then some (PyVal.str "SFO")
         else if so ∈ (["fresno", "fres"] : List String) then some (PyVal.str "FAT")
         else dictGet "origin_code" kvs)
    ∧ dictGet "destination_code" (preprocess_query (Except.ok resp) q)
      = (if sd ∈ (["fresno", "fres"] : List String) then some (PyVal.str "FAT")
         else if sd ∈ (["sf", "san francisco"] : List String) then some (PyVal.str "SFO")
         else dictGet "destination_code" kvs) := by
  have ho2 : getLowerDefault
      (comparison_override q (dictSet kvs "original_query" (PyVal.str q)))
      "origin" = .ok so := by
    rw [getLowerDefault_pipeline (by decide) (by decide) (by decide)]
    exact ho
  have hd2 : getLowerDefault
      (originFix so (comparison_override q (dictSet kvs "original_query" (PyVal.str q))))
      "destination" = .ok sd := by
    rw [getLowerDefault_pipeline2 (by decide) (by decide) (by decide) (by decide)]
    exact hd
  rw [preprocess_ok_eq hsd ho2 hd2]
  constructor
  · rw [dictGet_destFix_ne _ (by decide)]
    unfold originFix
    by_cases h1 : so ∈ (["sf", "san francisco"] : List String)
    · rw [if_pos h1, if_pos h1, dictGet_dictSet_self]
    · rw [if_neg h1, if_neg h1]
      by_cases h2 : so ∈ (["fresno", "fres"] : List String)
      · rw [if_pos h2, if_pos h2, dictGet_dictSet_self]
      · rw [if_neg h2, if_neg h2,
          comparison_override_get_ne q _ (by decide) (by decide),
          dictGet_dictSet_ne (by decide)]
  · unfold destFix
    by_cases h1 : sd ∈ (["fresno", "fres"] : List String)
    · rw [if_pos h1, if_pos h1, dictGet_dictSet_self]
    · rw [if_neg h1, if_neg h1]
      by_cases h2 : sd ∈ (["sf", "san francisco"] : List String)
      · rw [if_pos h2, if_pos h2, dictGet_dictSet_self]
      · rw [if_neg h2, if_neg h2, dictGet_originFix_ne _ (by decide),
          comparison_override_get_ne q _ (by decide) (by decide),
          dictGet_dictSet_ne (by decide)]

/-- C7, witness: origin San Francisco and destination Fresno receive
their codes. -/
theorem C7_witness :
    dictGet "origin_code"
      (preprocess_query
        (Except.ok "\x7b\"origin\": \"San Francisco\", \"destination\": \"Fresno\"\x7d")
        "hello")
      = some (PyVal.str "SFO")
    ∧ dictGet "destination_code"
      (preprocess_query
        (Except.ok "\x7b\"origin\": \"San Francisco\", \"destination\": \"Fresno\"\x7d")
        "hello")
      = some (PyVal.str "FAT") := by
  have h := C7_amended_airport_codes
    "\x7b\"origin\": \"San Francisco\", \"destination\": \"Fresno\"\x7d" "hello"
    [("origin", PyVal.str "San Francisco"), ("destination", PyVal.str "Fresno")]
    "san francisco" "fresno" rfl rfl rfl
  constructor
  · rw [h.1, if_pos (by decide)]
  · rw [h.2, if_pos (by decide)]
